import Mathlib

/-!
Shallow embedding of the LLM middleware pipeline (`core.py`, with the
validation collaborator from `validators.py`) and proofs of the spec claims.

Modelling conventions:
* Python values are the inductive `Val` (strings, ints, floats, bools,
  `None`, dicts as association lists, lists).  Wall-clock floats returned by
  `time.time()` are modelled as an abstract `Nat` tick carried in `Val.float`.
* Python exceptions are `PyErr`; fallible code returns `Except PyErr`.
  `PyErr.pipelineError` models `PipelineError`, the only class the
  orchestrator's first `except` arm catches; every other constructor is
  caught by the generic `except Exception` arm.
* External effects are an explicit `Env`: the template file store is a
  partial map from path to file content (`none` models `FileNotFoundError`,
  the error `_load_template` catches), the network is a map from the attempt
  index to that attempt's outcome, and the clock is the abstract tick.
* Logging and the metrics collaborator are side-effect free in the model and
  are dropped, except where a logging expression can itself raise
  (the `input_data['input_text'][:50]` and token-usage log lines), which is
  kept because it affects control flow.
* String primitives (`strip`, `lower`, `upper`, whitespace `split`) are
  modelled over ASCII whitespace and ASCII case; `str(x)` renders scalars
  exactly and abbreviates containers, and error message texts render Python's
  `type(x)` as a bare type name.  No claim depends on these renderings.
-/

namespace LLMPipe

/-- Python exception classes relevant to the pipeline.  `pipelineError` is
the repository's `PipelineError`; the rest are built-in classes that the
orchestrator's generic handler catches. -/
inductive PyErr where
  | pipelineError (msg : String)
  | typeError (msg : String)
  | keyError (key : String)
  | validationError (msg : String)
  | otherError (msg : String)

/-- Python values passed between the pipeline stages and hooks. -/
inductive Val where
  | str (s : String)
  | int (n : Int)
  | float (tick : Nat)
  | bool (b : Bool)
  | none
  | dict (entries : List (String × Val))
  | list (elems : List Val)

/-- Association-list lookup for dict entries (keys are unique in every dict
the pipeline builds). -/
def lookupKey (es : List (String × Val)) (k : String) : Option Val :=
  match es with
  | [] => Option.none
  | (k2, v) :: rest => if k2 = k then some v else lookupKey rest k

/-- Python truthiness (`if x:`). -/
def Val.isTruthy : Val → Bool
  | .str s => s ≠ ""
  | .int n => n ≠ 0
  | .float _ => true
  | .bool b => b
  | .none => false
  | .dict es => !es.isEmpty
  | .list es => !es.isEmpty

/-- Rendering of `type(x)` used in error message texts. -/
def Val.typeName : Val → String
  | .str _ => "str"
  | .int _ => "int"
  | .float _ => "float"
  | .bool _ => "bool"
  | .none => "NoneType"
  | .dict _ => "dict"
  | .list _ => "list"

def Val.isStr : Val → Bool
  | .str _ => true
  | _ => false

/-- Dict subscript `d[k]`: `KeyError` on a missing key, `TypeError`-style
failure when the value is not subscriptable by a string key. -/
def Val.getItem : Val → String → Except PyErr Val
  | .dict es, k =>
      match lookupKey es k with
      | some v => Except.ok v
      | Option.none => Except.error (PyErr.keyError k)
  | _, _ => Except.error (PyErr.otherError "object is not subscriptable by a string key")

/-- Python `d.get(k, default)`: raises when the receiver is not a dict
(`AttributeError`-style), otherwise total. -/
def Val.pyGet : Val → String → Val → Except PyErr Val
  | .dict es, k, dflt => Except.ok ((lookupKey es k).getD dflt)
  | _, _, _ => Except.error (PyErr.otherError "object has no attribute get")

/-- Python `d.get(k, default)` on a value already known to be a dict. -/
def Val.getD : Val → String → Val → Val
  | .dict es, k, dflt => (lookupKey es k).getD dflt
  | _, _, dflt => dflt

/-- Python slicing `v[:n]`: defined on strings and lists, a `TypeError` on
anything else. -/
def pySlice : Val → Nat → Except PyErr Val
  | .str s, n => Except.ok (Val.str (String.mk (s.toList.take n)))
  | .list es, n => Except.ok (Val.list (es.take n))
  | v, _ => Except.error (PyErr.typeError ("object of type " ++ v.typeName ++ " is not sliceable"))

/-- ASCII whitespace, the character class of the model's `str.strip`
and `str.split`. -/
def pyIsSpace (c : Char) : Bool :=
  c = ' ' || c = '\t' || c = '\n' || c = '\r' || c = '\x0b' || c = '\x0c'

/-- Python `s.strip()` over the modelled whitespace class. -/
def pyStrip (s : String) : String :=
  String.mk (((s.toList.dropWhile pyIsSpace).reverse.dropWhile pyIsSpace).reverse)

/-- Python `s.lower()` (ASCII case model). -/
def pyLower (s : String) : String :=
  String.mk (s.toList.map Char.toLower)

/-- Python `s.upper()` (ASCII case model). -/
def pyUpper (s : String) : String :=
  String.mk (s.toList.map Char.toUpper)

/-- Python `s[:n]` on a string: the first `n` code points. -/
def strTake (s : String) (n : Nat) : String :=
  String.mk (s.toList.take n)

/-- Accumulator loop of the whitespace split: split on whitespace runs with
no empty pieces. -/
def splitWsAux : List Char → List Char → List String
  | [], acc => if acc.isEmpty then [] else [String.mk acc.reverse]
  | c :: rest, acc =>
      if pyIsSpace c then
        if acc.isEmpty then splitWsAux rest []
        else String.mk acc.reverse :: splitWsAux rest []
      else splitWsAux rest (c :: acc)

/-- Python `s.split()`: split on whitespace runs, no empty pieces. -/
def pySplitWs (s : String) : List String :=
  splitWsAux s.toList []

/-- The word-count heuristic `len(prompt.split())`. -/
def wordCount (s : String) : Nat :=
  (pySplitWs s).length

/-- Python `str(x)`: exact on scalars, abbreviated on containers (no claim
inspects the rendering of a container). -/
def pyStr : Val → String
  | .str s => s
  | .int n => toString n
  | .float tick => toString tick
  | .bool b => if b then "True" else "False"
  | .none => "None"
  | .dict _ => "{...}"
  | .list _ => "[...]"

/-- `PipelineConfig` from `core.py`: the fields with behavioural content.
Defaults follow the dataclass defaults with no environment variables set
(the URL, model name, timeout and the metrics fields only parametrize IO
that the model treats through `Env` or drops). -/
structure PipelineConfig where
  llm_api_key : String := ""
  max_retries : Nat := 3
  strip_input : Bool := true
  lowercase_input : Bool := true
  uppercase_output : Bool := false
  template_dir : String := "prompt_templates"
  default_template : String := "default.txt"
  validate_schemas : Bool := true

/-- Outcome of one `requests.post` attempt.  `exn` is a raised
`requests.RequestException`; `resp status body` is an HTTP response whose
`.json()` either parses to `body = some v` or raises `json.JSONDecodeError`
(`body = none`; the parse is only attempted on status 200). -/
inductive NetOutcome where
  | exn
  | resp (status : Int) (body : Option Val)

/-- The external world of one `process` call: the template file store
(`none` models `FileNotFoundError`), the network outcome per attempt index,
pydantic importability, and the abstract wall clock. -/
structure Env where
  readTemplate : String → Option String
  net : Nat → NetOutcome
  pydantic_available : Bool := true
  clock : Nat := 0

/-- The built-in fallback template of `_load_template`. -/
def fallbackTemplate : String :=
  "User: {user_input}\nContext: {context}\nResponse:"

/-- The path `pathlib.Path(template_dir) / (template_name or default_template)`.
Python's `or` is truthiness-based, so an empty template name falls back to
the configured default. -/
def templatePath (cfg : PipelineConfig) (template_name : Option String) : String :=
  let template_file :=
    match template_name with
    | some n => if n = "" then cfg.default_template else n
    | Option.none => cfg.default_template
  cfg.template_dir ++ "/" ++ template_file

/-- `_load_template`: read the template file, or substitute the built-in
fallback when the read signals not-found. -/
def load_template (cfg : PipelineConfig) (env : Env) (template_name : Option String) : String :=
  match env.readTemplate (templatePath cfg template_name) with
  | some content => content
  | Option.none => fallbackTemplate

/-- Scanner state for `str.format`: copying literal text, just after an
unresolved `{`, just after an unresolved `}`, or inside a replacement-field
name. -/
inductive FmtState where
  | copy
  | afterOpen
  | afterClose
  | field (acc : List Char)

/-- Resolution of a complete replacement-field name.  A field named
`user_input` or `context` is substituted with `str()` of the corresponding
keyword value; an all-digit field is positional (`IndexError`, since
`format` is called with keywords only); any other name raises `KeyError`.
Conversion/format-spec syntax inside a field is not modelled: no template in
the repository uses it. -/
def resolveField (ui ctx : Val) (acc : List Char) : Except PyErr (List Char) :=
  let name := String.mk acc
  if name = "user_input" then Except.ok (pyStr ui).toList
  else if name = "context" then Except.ok (pyStr ctx).toList
  else if acc.all Char.isDigit then
    Except.error (PyErr.otherError "Replacement index out of range")
  else Except.error (PyErr.keyError name)

/-- Scanner for `template.format(user_input=..., context=...)`, one
character at a time.  `{{`/`}}` are brace escapes; a lone brace at the end
of input, a `}` with no opener, or a `{` inside a field name raise
`ValueError`-class errors, as `str.format` does. -/
def pyFormatAux (ui ctx : Val) : List Char → FmtState → Except PyErr (List Char)
  | [], FmtState.copy => Except.ok []
  | [], _ => Except.error (PyErr.otherError "Single brace encountered in format string")
  | c :: rest, FmtState.copy =>
      if c = '{' then pyFormatAux ui ctx rest FmtState.afterOpen
      else if c = '}' then pyFormatAux ui ctx rest FmtState.afterClose
      else (fun l => c :: l) <$> pyFormatAux ui ctx rest FmtState.copy
  | c :: rest, FmtState.afterOpen =>
      if c = '{' then (fun l => '{' :: l) <$> pyFormatAux ui ctx rest FmtState.copy
      else if c = '}' then Except.error (PyErr.otherError "Replacement index out of range")
      else pyFormatAux ui ctx rest (FmtState.field [c])
  | c :: rest, FmtState.afterClose =>
      if c = '}' then (fun l => '}' :: l) <$> pyFormatAux ui ctx rest FmtState.copy
      else Except.error (PyErr.otherError "Single brace encountered in format string")
  | c :: rest, FmtState.field acc =>
      if c = '}' then do
        let sub ← resolveField ui ctx acc
        (fun l => sub ++ l) <$> pyFormatAux ui ctx rest FmtState.copy
      else if c = '{' then
        Except.error (PyErr.otherError "unexpected brace in field name")
      else pyFormatAux ui ctx rest (FmtState.field (acc ++ [c]))

/-- `template.format(user_input=ui, context=ctx)`. -/
def pyFormat (template : String) (ui ctx : Val) : Except PyErr String :=
  String.mk <$> pyFormatAux ui ctx template.toList FmtState.copy

/-- Stage 1, `preprocess_input`: reject non-string input with a
`PipelineError`, then strip and lowercase per config. -/
def preprocess_input (cfg : PipelineConfig) (input_text : Val) (context : Val) :
    Except PyErr Val :=
  match input_text with
  | .str s =>
      let s1 := if cfg.strip_input then pyStrip s else s
      let s2 := if cfg.lowercase_input then pyLower s1 else s1
      Except.ok (Val.dict [("input", Val.str s2), ("context", context)])
  | v => Except.error (PyErr.pipelineError ("Input must be a string, got " ++ v.typeName))

/-- The body of `compose_prompt`'s `try` block: the two key lookups, the
template load, and the `format` call. -/
def composeBody (cfg : PipelineConfig) (env : Env) (preprocessed : Val)
    (template_name : Option String) : Except PyErr String := do
  let user_input ← preprocessed.getItem "input"
  let context ← preprocessed.getItem "context"
  let template := load_template cfg env template_name
  pyFormat template user_input context

/-- Stage 2, `compose_prompt`: its `except KeyError` arm converts a
`KeyError` (from the lookups or from `format`) into a `PipelineError`;
every other exception propagates. -/
def compose_prompt (cfg : PipelineConfig) (env : Env) (preprocessed : Val)
    (template_name : Option String) : Except PyErr String :=
  match composeBody cfg env preprocessed template_name with
  | Except.error (PyErr.keyError k) =>
      Except.error (PyErr.pipelineError ("Missing required key in preprocessed data: " ++ k))
  | r => r

/-- One `run_inference` call's observable behaviour: its return value or
raised exception, the backoff sleep durations performed in order, and the
number of HTTP attempts made. -/
structure InferRun where
  result : Except PyErr Val
  sleeps : List Nat
  attempts : Nat

/-- The extraction `result['choices'][0]['message']['content']` performed on
a parsed 200 body.  Failures here are `KeyError`/`TypeError`/`IndexError`
class errors that the retry loop's `except` clause does not catch. -/
def extractContent (result : Val) : Except PyErr Val := do
  let choices ← result.getItem "choices"
  let first ←
    match choices with
    | Val.list (v :: _) => Except.ok v
    | Val.list [] => Except.error (PyErr.otherError "list index out of range")
    | v => Except.error (PyErr.otherError ("object is not indexable: " ++ v.typeName))
  let message ← first.getItem "message"
  message.getItem "content"

/-- The `{content, usage}` dict built from a successful 200 body. -/
def successResult (body content : Val) : Val :=
  Val.dict [("content", content), ("usage", body.getD "usage" (Val.dict []))]

/-- The terminal error raised when the final attempt fails at transport
level. -/
def transportExhausted (max_retries : Nat) : PyErr :=
  PyErr.pipelineError ("Failed to get response after " ++ toString max_retries ++ " attempts")

/-- The generic terminal error raised after the `for` loop exhausts all
attempts without returning (every attempt got a non-200 status). -/
def inferenceFailed : PyErr :=
  PyErr.pipelineError "Inference failed"

/-- The transport-failure arm of the loop body (`except (RequestException,
JSONDecodeError)`): raise the terminal error on the last attempt, otherwise
sleep `2 ^ attempt` seconds and continue with the remaining attempts. -/
def transportFailStep (cfg : PipelineConfig) (attempt : Nat) (continue_ : InferRun) : InferRun :=
  if attempt = cfg.max_retries - 1 then
    ⟨Except.error (transportExhausted cfg.max_retries), [], 1⟩
  else
    ⟨continue_.result, 2 ^ attempt :: continue_.sleeps, continue_.attempts + 1⟩

/-- The retry loop `for attempt in range(max_retries)`, run over the list of
remaining attempt indices. -/
def runAttempts (cfg : PipelineConfig) (net : Nat → NetOutcome) : List Nat → InferRun
  | [] => ⟨Except.error inferenceFailed, [], 0⟩
  | attempt :: rest =>
      match net attempt with
      | NetOutcome.exn => transportFailStep cfg attempt (runAttempts cfg net rest)
      | NetOutcome.resp status body =>
          if status = 200 then
            match body with
            | Option.none => transportFailStep cfg attempt (runAttempts cfg net rest)
            | some parsed =>
                match extractContent parsed with
                | Except.ok content => ⟨Except.ok (successResult parsed content), [], 1⟩
                | Except.error e => ⟨Except.error e, [], 1⟩
          else
            let r := runAttempts cfg net rest
            ⟨r.result, r.sleeps, r.attempts + 1⟩

/-- The deterministic mock result returned when no credential is
configured. -/
def mockResult (prompt : String) : Val :=
  Val.dict
    [("content", Val.str ("[Development Mode] Mock response for: " ++ strTake prompt 50 ++ "...")),
     ("usage", Val.dict
        [("prompt_tokens", Val.int (wordCount prompt)),
         ("completion_tokens", Val.int 10),
         ("total_tokens", Val.int (wordCount prompt + 10))])]

/-- Stage 3, `run_inference`: reject an empty prompt, take the mock path
when no API key is configured, otherwise run the retry loop. -/
def run_inference (cfg : PipelineConfig) (net : Nat → NetOutcome) (prompt : String) : InferRun :=
  if prompt = "" then
    ⟨Except.error (PyErr.pipelineError "Cannot run inference with empty prompt"), [], 0⟩
  else if cfg.llm_api_key = "" then
    ⟨Except.ok (mockResult prompt), [], 0⟩
  else
    runAttempts cfg net (List.range cfg.max_retries)

/-- Stage 4, `postprocess_output`: default a missing `content` to `""` and a
missing `usage` to `{}`, reject a non-string content with a `PipelineError`,
uppercase per config, and package the envelope (`token_usage` is the usage
when truthy, else `None`). -/
def postprocess_output (cfg : PipelineConfig) (clock : Nat) (inference_result : Val)
    (context : Val) : Except PyErr Val := do
  let output ← inference_result.pyGet "content" (Val.str "")
  let usage ← inference_result.pyGet "usage" (Val.dict [])
  match output with
  | Val.str s =>
      let processed := if cfg.uppercase_output then pyUpper s else s
      Except.ok (Val.dict
        [("final_output", Val.str processed),
         ("context_used", context),
         ("timestamp", Val.float clock),
         ("token_usage", if usage.isTruthy then usage else Val.none)])
  | v => Except.error (PyErr.pipelineError ("Output must be a string, got " ++ v.typeName))

/-- Modelled from the spec: the validation collaborator's input gate
(`validate_input` in `validators.py` delegating to the pydantic model
`PipelineInput`, whose implementation is third-party code outside this
repository).  It requires a mapping with a string `input_text` that is
non-empty after stripping, defaults a missing `context` to `None`, ignores
extra keys, and returns a dict with exactly the schema's two fields; any
violation raises a non-`PipelineError` exception.  (pydantic v1 would coerce
some non-string scalars to `str`; the model rejects them instead — both
behaviours raise no `PipelineError`, so no claim distinguishes them.) -/
def validate_input (avail : Bool) (input_data : Val) : Except PyErr Val :=
  if !avail then Except.ok input_data
  else
    match input_data with
    | Val.dict es =>
        match lookupKey es "input_text" with
        | some (Val.str s) =>
            if pyStrip s = "" then
              Except.error (PyErr.validationError "input_text cannot be empty")
            else
              Except.ok (Val.dict
                [("input_text", Val.str s),
                 ("context", (lookupKey es "context").getD Val.none)])
        | some _ => Except.error (PyErr.validationError "str type expected")
        | Option.none => Except.error (PyErr.validationError "field required")
    | _ => Except.error (PyErr.otherError "argument after ** must be a mapping")

/-- Check of the pydantic `Optional[Dict[str, int]]` field. -/
def tokenUsageOk : Val → Bool
  | Val.none => true
  | Val.dict es => es.all (fun kv => match kv.2 with | Val.int _ => true | _ => false)
  | _ => false

/-- Modelled from the spec: the validation collaborator's output gate
(`validate_output` delegating to the pydantic model `PipelineOutput`,
third-party code outside this repository).  It requires a mapping with a
string `final_output` that is non-empty after stripping, a float
`timestamp`, and a `token_usage` that is a str-to-int dict or `None`;
`context_used` defaults to `None`; it returns a dict with exactly the
schema's four fields.  Any violation raises a non-`PipelineError`
exception. -/
def validate_output (avail : Bool) (output_data : Val) : Except PyErr Val :=
  if !avail then Except.ok output_data
  else
    match output_data with
    | Val.dict es =>
        match lookupKey es "final_output", lookupKey es "timestamp" with
        | some (Val.str s), some (Val.float t) =>
            if pyStrip s = "" then
              Except.error (PyErr.validationError "final_output cannot be empty")
            else
              let tu := (lookupKey es "token_usage").getD Val.none
              if tokenUsageOk tu then
                Except.ok (Val.dict
                  [("final_output", Val.str s),
                   ("context_used", (lookupKey es "context_used").getD Val.none),
                   ("timestamp", Val.float t),
                   ("token_usage", tu)])
              else Except.error (PyErr.validationError "token_usage must be a mapping to integers")
        | _, _ => Except.error (PyErr.validationError "field required or wrong type")
    | _ => Except.error (PyErr.otherError "argument after ** must be a mapping")

/-- A registered hook: an arbitrary caller-supplied Python callable, which
may return any value or raise any exception. -/
def Hook : Type := Val → Except PyErr Val

/-- A pipeline instance: its config and the two hook registries. -/
structure Pipeline where
  config : PipelineConfig
  pre_hooks : List Hook := []
  post_hooks : List Hook := []

/-- Run a hook list in registration order, threading the envelope. -/
def runHooks (hooks : List Hook) (v : Val) : Except PyErr Val :=
  match hooks with
  | [] => Except.ok v
  | h :: rest => do runHooks rest (← h v)

/-- The token-usage logging block in `process`: reading
`result['token_usage'].get(...)` can itself raise when a hookless success
result carries a truthy non-dict usage, so the reads are kept. -/
def tokenUsageLog (result : Val) : Except PyErr Unit :=
  match result with
  | Val.dict es =>
      match lookupKey es "token_usage" with
      | some tu =>
          if tu.isTruthy then do
            let _ ← tu.pyGet "total_tokens" (Val.int 0)
            let _ ← tu.pyGet "prompt_tokens" (Val.int 0)
            let _ ← tu.pyGet "completion_tokens" (Val.int 0)
            Except.ok ()
          else Except.ok ()
      | Option.none => Except.ok ()
  | _ => Except.error (PyErr.otherError "argument is not a container")

/-- The guard `if self.config.validate_schemas:` around the input
validation call. -/
def maybeValidateInput (flag avail : Bool) (d : Val) : Except PyErr Val :=
  if flag then validate_input avail d else Except.ok d

/-- The guard `if self.config.validate_schemas:` around the output
validation call. -/
def maybeValidateOutput (flag avail : Bool) (d : Val) : Except PyErr Val :=
  if flag then validate_output avail d else Except.ok d

/-- The body of `process`'s `try` block: build the input envelope, run
pre-hooks, optional input validation, the logging subscript
`input_data['input_text'][:50]`, stages 1-4, the token-usage log, optional
output validation, and the post-hooks. -/
def processBody (p : Pipeline) (env : Env) (input_text : Val) (context : Val)
    (template_name : Option String) : Except PyErr Val := do
  let input_data := Val.dict [("input_text", input_text), ("context", context)]
  let input_data ← runHooks p.pre_hooks input_data
  let input_data ← maybeValidateInput p.config.validate_schemas env.pydantic_available input_data
  let it ← input_data.getItem "input_text"
  let _ ← pySlice it 50
  let ctxv ← input_data.getItem "context"
  let preprocessed ← preprocess_input p.config it ctxv
  let prompt ← compose_prompt p.config env preprocessed template_name
  let inference_result ← (run_inference p.config env.net prompt).result
  let result ← postprocess_output p.config env.clock inference_result ctxv
  let _ ← tokenUsageLog result
  let result ← maybeValidateOutput p.config.validate_schemas env.pydantic_available result
  runHooks p.post_hooks result

/-- The detailed failure envelope built by the `except PipelineError` arm. -/
def pipelineFailureEnvelope (msg : String) (input_text : Val) (context : Val) : Val :=
  Val.dict
    [("error", Val.str msg),
     ("input", input_text),
     ("context", context),
     ("status", Val.str "failed")]

/-- The opaque failure envelope built by the `except Exception` arm. -/
def genericFailureEnvelope : Val :=
  Val.dict [("error", Val.str "Internal pipeline error"), ("status", Val.str "failed")]

/-- The orchestrator `process`: run the body and convert any raised error
into a failure envelope — detailed for a `PipelineError`, opaque otherwise.
`process` is a total function into `Val`, which is the model's statement
that no exception ever propagates to the caller. -/
def process (p : Pipeline) (env : Env) (input_text : Val) (context : Val)
    (template_name : Option String) : Val :=
  match processBody p env input_text context template_name with
  | Except.ok result => result
  | Except.error (PyErr.pipelineError msg) => pipelineFailureEnvelope msg input_text context
  | Except.error _ => genericFailureEnvelope

/-- Field presence in a dict envelope. -/
def hasKey (v : Val) (k : String) : Bool :=
  match v with
  | Val.dict es => (lookupKey es k).isSome
  | _ => false

/-- The success field set of the result-envelope invariant. -/
def successShaped (v : Val) : Bool :=
  hasKey v "final_output" && hasKey v "context_used" && hasKey v "timestamp" &&
    hasKey v "token_usage"

/-- The failure field set of the result-envelope invariant. -/
def failureShaped (v : Val) : Bool :=
  hasKey v "error" &&
    (match v with
     | Val.dict es =>
         match lookupKey es "status" with
         | some (Val.str s) => s = "failed"
         | _ => false
     | _ => false)

/-- Exactly one of the two envelope shapes. -/
def exactlyOneShape (v : Val) : Bool :=
  (successShaped v).xor (failureShaped v)

/-- Test for membership in Python's `TypeError` class. -/
def PyErr.isTypeError : PyErr → Bool
  | PyErr.typeError _ => true
  | _ => false

/-- A string with no brace characters (plain literal text for `format`). -/
def braceFree (s : String) : Bool :=
  s.toList.all (fun c => c ≠ '{' && c ≠ '}')

/-- An environment with no readable template files, a network that always
raises at transport level, and pydantic importable. -/
def envNone : Env :=
  { readTemplate := fun _ => Option.none, net := fun _ => NetOutcome.exn }

/-- A pipeline with the default config and no hooks. -/
def pDefault : Pipeline := { config := {} }

/-- A pipeline with a credential and a budget of one attempt. -/
def pKeyed1 : Pipeline := { config := { llm_api_key := "k", max_retries := 1 } }

/-- A parsed 200 body with the shape the client expects. -/
def okBody : Val :=
  Val.dict
    [("choices", Val.list [Val.dict [("message", Val.dict [("content", Val.str "Test response")])]]),
     ("usage", Val.dict
        [("prompt_tokens", Val.int 5), ("completion_tokens", Val.int 2),
         ("total_tokens", Val.int 7)])]

/-- A network that fails at transport level on the first two attempts and
returns a parseable 200 on the third. -/
def netFailTwice : Nat → NetOutcome :=
  fun i => if i < 2 then NetOutcome.exn else NetOutcome.resp 200 (some okBody)

/-- A network that returns status 400 on every attempt. -/
def net400 : Nat → NetOutcome := fun _ => NetOutcome.resp 400 Option.none

/-- A registered post-hook that replaces the result envelope with an empty
dict. -/
def emptyingPostHook : Hook := fun _ => Except.ok (Val.dict [])

/-- A pipeline whose only post-hook empties the result envelope. -/
def pEmptyingPost : Pipeline := { config := {}, post_hooks := [emptyingPostHook] }

/-- Inversion of a successful `Except` bind. -/
theorem exceptBind_ok {α β : Type} (x : Except PyErr α) (f : α → Except PyErr β) (r : β) :
    (x >>= f) = Except.ok r ↔ ∃ a, x = Except.ok a ∧ f a = Except.ok r := by
  cases x <;> simp [Bind.bind, Except.bind]

/-- C6: for every input string and context, `preprocess_input` applies
strip then lowercase, each under its own flag; with both flags (the default
config) the output input is `strip` followed by `lower`, and the context is
returned unchanged in every combination. -/
theorem preprocess_input_flag_matrix (cfg : PipelineConfig) (s : String) (ctx : Val) :
    (cfg.strip_input = true → cfg.lowercase_input = true →
      preprocess_input cfg (Val.str s) ctx =
        Except.ok (Val.dict [("input", Val.str (pyLower (pyStrip s))), ("context", ctx)]))
  ∧ (cfg.strip_input = true → cfg.lowercase_input = false →
      preprocess_input cfg (Val.str s) ctx =
        Except.ok (Val.dict [("input", Val.str (pyStrip s)), ("context", ctx)]))
  ∧ (cfg.strip_input = false → cfg.lowercase_input = true →
      preprocess_input cfg (Val.str s) ctx =
        Except.ok (Val.dict [("input", Val.str (pyLower s)), ("context", ctx)]))
  ∧ (cfg.strip_input = false → cfg.lowercase_input = false →
      preprocess_input cfg (Val.str s) ctx =
        Except.ok (Val.dict [("input", Val.str s), ("context", ctx)])) := by
  refine ⟨?_, ?_, ?_, ?_⟩ <;> intro h1 h2 <;> simp [preprocess_input, h1, h2]

/-- C6 witness: the default config strips then lowercases a concrete
input. -/
theorem preprocess_input_flag_matrix_witness :
    preprocess_input {} (Val.str "  TEST Input  ") (Val.str "test context") =
      Except.ok (Val.dict [("input", Val.str "test input"), ("context", Val.str "test context")]) :=
  (preprocess_input_flag_matrix {} "  TEST Input  " (Val.str "test context")).1 rfl rfl

/-- C9 counterexample: on a non-string input `preprocess_input` raises the
repository's `PipelineError`, which is not a `TypeError`-class error. -/
theorem preprocess_input_type_error_cex :
    preprocess_input {} (Val.int 3) Val.none =
      Except.error (PyErr.pipelineError "Input must be a string, got int")
    ∧ (PyErr.pipelineError "Input must be a string, got int").isTypeError = false :=
  ⟨rfl, rfl⟩

/-- C9 amended: for every non-string raw text value, `preprocess_input`
fails with a `PipelineError` reporting the offending type, and for every
string it succeeds with the context value passed through unchanged. -/
theorem preprocess_input_wrong_type (cfg : PipelineConfig) (v ctx : Val) :
    (v.isStr = false →
      preprocess_input cfg v ctx =
        Except.error (PyErr.pipelineError ("Input must be a string, got " ++ v.typeName)))
  ∧ (∀ s, v = Val.str s →
      ∃ inp, preprocess_input cfg v ctx =
        Except.ok (Val.dict [("input", Val.str inp), ("context", ctx)])) := by
  constructor
  · intro h
    cases v <;> simp_all [preprocess_input, Val.isStr]
  · rintro s rfl
    exact ⟨_, rfl⟩

/-- C9 amended witness: a concrete non-string input fails with a
`PipelineError`, and a concrete string input passes its context through. -/
theorem preprocess_input_wrong_type_witness :
    preprocess_input {} (Val.list []) Val.none =
      Except.error (PyErr.pipelineError "Input must be a string, got list") :=
  (preprocess_input_wrong_type {} (Val.list []) Val.none).1 rfl

/-- C8: whenever the template store signals that the named file cannot be
read (`FileNotFoundError`, the failure `_load_template` catches),
`_load_template` returns the built-in fallback template string. -/
theorem load_template_fallback (cfg : PipelineConfig) (env : Env) (tn : Option String)
    (h : env.readTemplate (templatePath cfg tn) = Option.none) :
    load_template cfg env tn = "User: {user_input}\nContext: {context}\nResponse:" := by
  simp [load_template, h, fallbackTemplate]

/-- C8 witness: a store with no readable files yields the fallback for a
concrete template name. -/
theorem load_template_fallback_witness :
    load_template {} envNone (some "missing.txt") =
      "User: {user_input}\nContext: {context}\nResponse:" :=
  load_template_fallback {} envNone (some "missing.txt") rfl

/-- C10: an inference-result mapping with no `content` key does not make
`postprocess_output` raise: the content defaults to the empty string and
the success envelope carries `final_output == ""`; the output shape error
fires only when a present `content` value is not a string. -/
theorem postprocess_output_missing_content (cfg : PipelineConfig) (clock : Nat)
    (es : List (String × Val)) (ctx : Val) :
    (lookupKey es "content" = Option.none →
      postprocess_output cfg clock (Val.dict es) ctx =
        Except.ok (Val.dict
          [("final_output", Val.str ""), ("context_used", ctx),
           ("timestamp", Val.float clock),
           ("token_usage",
             if ((lookupKey es "usage").getD (Val.dict [])).isTruthy then
               (lookupKey es "usage").getD (Val.dict [])
             else Val.none)]))
  ∧ (∀ v, lookupKey es "content" = some v → v.isStr = false →
      postprocess_output cfg clock (Val.dict es) ctx =
        Except.error (PyErr.pipelineError ("Output must be a string, got " ++ v.typeName))) := by
  constructor
  · intro h
    simp only [postprocess_output, Val.pyGet, h, Option.getD, Bind.bind, Except.bind]
    cases hcu : cfg.uppercase_output <;> simp [pyUpper]
  · intro v hv hns
    cases v <;> simp_all [postprocess_output, Val.pyGet, Val.isStr] <;> rfl

/-- C10 witness: a concrete inference result without `content` yields a
success envelope with an empty `final_output`. -/
theorem postprocess_output_missing_content_witness :
    postprocess_output {} 0 (Val.dict [("usage", Val.dict [("total_tokens", Val.int 5)])])
        (Val.str "c") =
      Except.ok (Val.dict
        [("final_output", Val.str ""), ("context_used", Val.str "c"),
         ("timestamp", Val.float 0),
         ("token_usage", Val.dict [("total_tokens", Val.int 5)])]) :=
  (postprocess_output_missing_content {} 0 [("usage", Val.dict [("total_tokens", Val.int 5)])]
    (Val.str "c")).1 rfl

/-- C3 counterexample: with no credential configured, `run_inference` on the
empty prompt does raise (the empty-prompt guard precedes the mock path), so
the claim does not hold for every prompt. -/
theorem run_inference_mock_empty_prompt_cex :
    ({} : PipelineConfig).llm_api_key = ""
    ∧ (run_inference {} (fun _ => NetOutcome.exn) "").result =
        Except.error (PyErr.pipelineError "Cannot run inference with empty prompt") :=
  ⟨rfl, rfl⟩

/-- C3 amended: for every non-empty prompt, with no credential configured
`run_inference` never raises, performs no attempt and no sleep, and returns
content equal to the development-mode marker followed by the prompt's first
50 characters, with usage `prompt_tokens = word count`,
`completion_tokens = 10`, `total_tokens = word count + 10`. -/
theorem run_inference_mock (cfg : PipelineConfig) (net : Nat → NetOutcome) (prompt : String)
    (hkey : cfg.llm_api_key = "") (hp : prompt ≠ "") :
    run_inference cfg net prompt =
      ⟨Except.ok (Val.dict
        [("content",
          Val.str ("[Development Mode] Mock response for: " ++ strTake prompt 50 ++ "...")),
         ("usage", Val.dict
           [("prompt_tokens", Val.int (wordCount prompt)),
            ("completion_tokens", Val.int 10),
            ("total_tokens", Val.int (wordCount prompt + 10))])]), [], 0⟩ := by
  simp [run_inference, hp, hkey, mockResult]

/-- C3 amended witness: the mock result for a concrete prompt. -/
theorem run_inference_mock_witness :
    run_inference {} (fun _ => NetOutcome.exn) "Hello there, how are you?" =
      ⟨Except.ok (Val.dict
        [("content", Val.str "[Development Mode] Mock response for: Hello there, how are you?..."),
         ("usage", Val.dict
           [("prompt_tokens", Val.int 5), ("completion_tokens", Val.int 10),
            ("total_tokens", Val.int 15)])]), [], 0⟩ :=
  run_inference_mock {} (fun _ => NetOutcome.exn) "Hello there, how are you?" rfl (by decide)

/-- C1: `process` is the sole catch boundary: a body that returns normally
is returned as-is, any raised error becomes a failure envelope with
`status == "failed"`, and a classified `PipelineError` becomes the detailed
envelope echoing the caller's original `input_text` and `context`.
(`process` being a total function into `Val` is the model's statement that
no exception ever propagates to the caller.) -/
theorem process_error_boundary (p : Pipeline) (env : Env) (it ctx : Val)
    (tn : Option String) :
    (∀ r, processBody p env it ctx tn = Except.ok r → process p env it ctx tn = r)
  ∧ (∀ e, processBody p env it ctx tn = Except.error e →
      failureShaped (process p env it ctx tn) = true)
  ∧ (∀ msg, processBody p env it ctx tn = Except.error (PyErr.pipelineError msg) →
      process p env it ctx tn =
        Val.dict
          [("error", Val.str msg), ("input", it), ("context", ctx),
           ("status", Val.str "failed")]) := by
  refine ⟨?_, ?_, ?_⟩
  · intro r hr
    simp [process, hr]
  · intro e he
    cases e <;>
      simp [process, he, failureShaped, pipelineFailureEnvelope, genericFailureEnvelope,
        hasKey, lookupKey]
  · intro msg hmsg
    simp [process, hmsg, pipelineFailureEnvelope]

/-- C1 witness: a pipeline with a credential and an always-failing network
raises a `PipelineError` in the body, and `process` converts it to the
detailed failure envelope echoing input and context. -/
theorem process_error_boundary_witness :
    process pKeyed1 envNone (Val.str "hi") (Val.str "c") Option.none =
      Val.dict
        [("error", Val.str "Failed to get response after 1 attempts"),
         ("input", Val.str "hi"), ("context", Val.str "c"),
         ("status", Val.str "failed")] :=
  (process_error_boundary pKeyed1 envNone (Val.str "hi") (Val.str "c") Option.none).2.2
    "Failed to get response after 1 attempts" rfl

/-- Every success of `postprocess_output` is a dict with exactly the four
success fields in order. -/
theorem postprocess_output_shape (cfg : PipelineConfig) (clock : Nat) (ir ctx r : Val)
    (h : postprocess_output cfg clock ir ctx = Except.ok r) :
    ∃ fo cu ts tu, r =
      Val.dict
        [("final_output", fo), ("context_used", cu), ("timestamp", ts),
         ("token_usage", tu)] := by
  cases ir <;> simp only [postprocess_output, Val.pyGet, Bind.bind, Except.bind] at h <;>
    try exact absurd h (by simp)
  split at h
  · exact ⟨_, _, _, _, by injection h with h2; exact h2.symm⟩
  · exact absurd h (by simp)

/-- Every success of `validate_output` with pydantic available is a dict
with exactly the four success fields in order; with pydantic unavailable it
is the input unchanged. -/
theorem validate_output_shape (avail : Bool) (d r : Val)
    (h : validate_output avail d = Except.ok r) :
    (avail = false ∧ r = d) ∨
    ∃ fo cu ts tu, r =
      Val.dict
        [("final_output", fo), ("context_used", cu), ("timestamp", ts),
         ("token_usage", tu)] := by
  cases avail
  · left
    simp_all [validate_output]
  · right
    unfold validate_output at h
    rw [if_neg (by simp)] at h
    split at h
    · split at h
      · split at h
        · exact absurd h (by simp)
        · simp only [] at h
          split at h
          · exact ⟨_, _, _, _, by injection h with h2; exact h2.symm⟩
          · exact absurd h (by simp)
      · exact absurd h (by simp)
    · exact absurd h (by simp)

/-- A dict with exactly the four success keys satisfies the exactly-one
invariant, whatever its values. -/
theorem fourKeyDict_shape (fo cu ts tu : Val) :
    exactlyOneShape
      (Val.dict
        [("final_output", fo), ("context_used", cu), ("timestamp", ts),
         ("token_usage", tu)]) = true := rfl

/-- C4 counterexample: a registered post-hook that empties the result
envelope makes `process` return an envelope with neither the success field
set nor the failure field set, so the invariant does not hold for every
sequence of post-hooks. -/
theorem process_shape_invariant_cex :
    exactlyOneShape
      (process pEmptyingPost envNone (Val.str "Hello") (Val.str "c") Option.none) = false := rfl

/-- C4 amended: for every input, environment and sequence of pre-hooks,
when no post-hooks are registered every envelope returned by `process`
contains exactly one of the success field set and the failure field set —
never both and never neither. -/
theorem process_shape_invariant (p : Pipeline) (env : Env) (it ctx : Val)
    (tn : Option String) (hpost : p.post_hooks = []) :
    exactlyOneShape (process p env it ctx tn) = true := by
  rcases hb : processBody p env it ctx tn with e | r
  · cases e <;>
      simp [process, hb, exactlyOneShape, successShaped, failureShaped, hasKey, lookupKey,
        pipelineFailureEnvelope, genericFailureEnvelope]
  · have hpr : process p env it ctx tn = r := by simp [process, hb]
    rw [hpr]
    simp only [processBody, hpost, runHooks, exceptBind_ok, Except.ok.injEq] at hb
    obtain ⟨d1, hd1, d2, hd2, itv, hitv, sl, hsl, ctxv, hctxv, pre, hpre, prompt, hprompt,
      ir, hir, result, hres, u, hu, r2, hr2, hfin⟩ := hb
    subst hfin
    rcases hvs : p.config.validate_schemas with _ | _ <;>
      rw [maybeValidateOutput, hvs] at hr2
    · simp only [if_neg Bool.false_ne_true] at hr2
      injection hr2 with hr2
      subst hr2
      obtain ⟨fo, cu, ts, tu, hshape⟩ := postprocess_output_shape _ _ _ _ _ hres
      rw [hshape]
      exact fourKeyDict_shape fo cu ts tu
    · simp only [if_pos rfl] at hr2
      rcases validate_output_shape _ _ _ hr2 with ⟨_, hr2e⟩ | ⟨fo, cu, ts, tu, hshape⟩
      · subst hr2e
        obtain ⟨fo, cu, ts, tu, hshape⟩ := postprocess_output_shape _ _ _ _ _ hres
        rw [hshape]
        exact fourKeyDict_shape fo cu ts tu
      · rw [hshape]
        exact fourKeyDict_shape fo cu ts tu

/-- C4 amended witness: a concrete hook-free call returns an envelope with
exactly one shape. -/
theorem process_shape_invariant_witness :
    exactlyOneShape (process pDefault envNone (Val.str "Hello") (Val.str "c") Option.none) =
      true :=
  process_shape_invariant pDefault envNone (Val.str "Hello") (Val.str "c") Option.none rfl

/-- A loop over attempt indices that all receive a non-200 response runs
every attempt, never sleeps, and falls through to the generic terminal
error. -/
theorem runAttempts_all_non200 (cfg : PipelineConfig) (net : Nat → NetOutcome)
    (l : List Nat) (h : ∀ i ∈ l, ∃ s b, net i = NetOutcome.resp s b ∧ s ≠ 200) :
    runAttempts cfg net l = ⟨Except.error inferenceFailed, [], l.length⟩ := by
  induction l with
  | nil => rfl
  | cons attempt rest ih =>
      obtain ⟨s, b, hnet, hs⟩ := h attempt (by simp)
      have ihr := ih (fun i hi => h i (by simp [hi]))
      simp [runAttempts, hnet, hs, ihr]

/-- The two terminal inference errors are distinguishable: the generic one
is never equal to the transport-exhaustion one, for any attempt count. -/
theorem inferenceFailed_ne_transportExhausted (n : Nat) :
    inferenceFailed ≠ transportExhausted n := by
  intro h
  have h2 : ("Inference failed" : String) =
      "Failed to get response after " ++ toString n ++ " attempts" := by
    injection h
  have h3 := congrArg String.length h2
  rw [String.length_append, String.length_append] at h3
  have e1 : ("Inference failed" : String).length = 16 := rfl
  have e2 : ("Failed to get response after " : String).length = 29 := rfl
  have e3 : (" attempts" : String).length = 9 := rfl
  rw [e1, e2, e3] at h3
  omega

/-- C5: with a credential configured and every attempt receiving a non-200
response, `run_inference` performs all `max_retries` attempts with no
backoff sleep and raises the generic terminal inference-failure error,
which differs from the transport-exhaustion error for every attempt
count. -/
theorem run_inference_non200_exhausted (cfg : PipelineConfig) (net : Nat → NetOutcome)
    (prompt : String) (hkey : cfg.llm_api_key ≠ "") (hprompt : prompt ≠ "")
    (hnet : ∀ i, i < cfg.max_retries → ∃ s b, net i = NetOutcome.resp s b ∧ s ≠ 200) :
    run_inference cfg net prompt = ⟨Except.error inferenceFailed, [], cfg.max_retries⟩
    ∧ ∀ n, inferenceFailed ≠ transportExhausted n := by
  constructor
  · rw [run_inference, if_neg hprompt, if_neg hkey]
    rw [runAttempts_all_non200 cfg net (List.range cfg.max_retries)
      (fun i hi => hnet i (List.mem_range.mp hi))]
    simp
  · exact inferenceFailed_ne_transportExhausted

/-- C5 witness: with `max_retries = 1` and a mocked endpoint returning 400,
`run_inference` raises the generic terminal error after exactly one attempt
and no sleep. -/
theorem run_inference_non200_exhausted_witness :
    run_inference { llm_api_key := "k", max_retries := 1 } net400 "Test prompt" =
      ⟨Except.error inferenceFailed, [], 1⟩ :=
  (run_inference_non200_exhausted { llm_api_key := "k", max_retries := 1 } net400
    "Test prompt" (by decide) (by decide)
    (fun i _ => ⟨400, Option.none, rfl, by decide⟩)).1

/-- A loop whose every remaining attempt fails at transport level sleeps
`2 ^ attempt` after each attempt except the last and raises the
transport-exhaustion error on the last. -/
theorem runAttempts_all_exn (cfg : PipelineConfig) (net : Nat → NetOutcome) :
    ∀ (n j : Nat), j + n = cfg.max_retries → 1 ≤ n →
    (∀ i, j ≤ i → i < cfg.max_retries → net i = NetOutcome.exn) →
    runAttempts cfg net (List.range' j n) =
      ⟨Except.error (transportExhausted cfg.max_retries),
       (List.range' j (n - 1)).map (fun a => 2 ^ a), n⟩ := by
  intro n
  induction n with
  | zero => intro j _ h1 _; omega
  | succ m ih =>
      intro j hjn _ hexn
      rw [List.range'_succ]
      have hj := hexn j (Nat.le_refl j) (by omega)
      rcases Nat.eq_zero_or_pos m with hm | hm
      · subst hm
        simp only [runAttempts, hj]
        simp only [transportFailStep, if_pos (show j = cfg.max_retries - 1 by omega)]
        simp
      · have ihr := ih (j + 1) (by omega) (by omega)
          (fun i hi1 hi2 => hexn i (by omega) hi2)
        simp only [runAttempts, hj]
        simp only [transportFailStep, if_neg (show ¬j = cfg.max_retries - 1 by omega)]
        rw [ihr]
        obtain ⟨kk, rfl⟩ : ∃ kk, m = kk + 1 := ⟨m - 1, by omega⟩
        rw [show kk + 1 + 1 - 1 = kk + 1 by omega, List.range'_succ]
        simp

/-- A loop with transport failures on the first `k` remaining attempts and
a parseable 200 on the next returns the extracted content after `k` sleeps
of `2 ^ attempt` seconds and `k + 1` attempts. -/
theorem runAttempts_exn_then_ok (cfg : PipelineConfig) (net : Nat → NetOutcome)
    (parsed content : Val) (hex : extractContent parsed = Except.ok content) :
    ∀ (k j n : Nat), j + n = cfg.max_retries → k < n →
    (∀ i, j ≤ i → i < j + k → net i = NetOutcome.exn) →
    net (j + k) = NetOutcome.resp 200 (some parsed) →
    runAttempts cfg net (List.range' j n) =
      ⟨Except.ok (successResult parsed content),
       (List.range' j k).map (fun a => 2 ^ a), k + 1⟩ := by
  intro k
  induction k with
  | zero =>
      intro j n hjn hkn hfail hok
      obtain ⟨m, rfl⟩ : ∃ m, n = m + 1 := ⟨n - 1, by omega⟩
      rw [List.range'_succ]
      rw [Nat.add_zero] at hok
      simp [runAttempts, hok, hex]
  | succ kk ih =>
      intro j n hjn hkn hfail hok
      obtain ⟨m, rfl⟩ : ∃ m, n = m + 1 := ⟨n - 1, by omega⟩
      rw [List.range'_succ]
      have hj := hfail j (Nat.le_refl j) (by omega)
      simp only [runAttempts, hj]
      simp only [transportFailStep, if_neg (show ¬j = cfg.max_retries - 1 by omega)]
      have ihr := ih (j + 1) m (by omega) (by omega)
        (fun i h1 h2 => hfail i (by omega) (by omega))
        (by rw [show j + 1 + kk = j + (kk + 1) by omega]; exact hok)
      rw [ihr, List.range'_succ]
      simp

/-- C2: with a credential configured, transport failures on the first `k`
attempts followed by a parseable 200 make `run_inference` return the
extracted content after backoff sleeps of exactly `2 ^ 0, …, 2 ^ (k - 1)`
seconds; and transport failures on all attempts make the final attempt
raise the terminal error reporting the attempt count, after sleeps
`2 ^ 0, …, 2 ^ (max_retries - 2)`. -/
theorem run_inference_backoff (cfg : PipelineConfig) (net : Nat → NetOutcome)
    (prompt : String) (parsed content : Val) (k : Nat)
    (hkey : cfg.llm_api_key ≠ "") (hprompt : prompt ≠ "") :
    (k < cfg.max_retries →
      (∀ i, i < k → net i = NetOutcome.exn) →
      net k = NetOutcome.resp 200 (some parsed) →
      extractContent parsed = Except.ok content →
      run_inference cfg net prompt =
        ⟨Except.ok (successResult parsed content),
         (List.range k).map (fun a => 2 ^ a), k + 1⟩)
  ∧ (1 ≤ cfg.max_retries →
      (∀ i, i < cfg.max_retries → net i = NetOutcome.exn) →
      run_inference cfg net prompt =
        ⟨Except.error (transportExhausted cfg.max_retries),
         (List.range (cfg.max_retries - 1)).map (fun a => 2 ^ a), cfg.max_retries⟩) := by
  constructor
  · intro hk hfail hok hex
    rw [run_inference, if_neg hprompt, if_neg hkey, List.range_eq_range',
      runAttempts_exn_then_ok cfg net parsed content hex k 0 cfg.max_retries
        (by omega) hk (fun i h1 h2 => hfail i (by omega)) (by simpa using hok),
      List.range_eq_range']
  · intro h1 hfail
    rw [run_inference, if_neg hprompt, if_neg hkey, List.range_eq_range',
      runAttempts_all_exn cfg net cfg.max_retries 0 (by omega) h1
        (fun i _ h2 => hfail i h2),
      List.range_eq_range']

/-- C2 witness: `max_retries = 3`, transport failures on the first two
attempts, success on the third: the successful content is returned after
exactly two backoff sleeps of 1s then 2s. -/
theorem run_inference_backoff_witness :
    run_inference { llm_api_key := "k" } netFailTwice "Test prompt" =
      ⟨Except.ok (successResult okBody (Val.str "Test response")), [1, 2], 3⟩ :=
  (run_inference_backoff { llm_api_key := "k" } netFailTwice "Test prompt" okBody
    (Val.str "Test response") 2 (by decide) (by decide)).1 (by decide)
    (fun i hi => by simp [netFailTwice, hi]) rfl rfl

/-- The scanner copies a brace-free literal segment verbatim. -/
theorem pyFormatAux_literal (ui ctx : Val) (l : List Char)
    (hl : l.all (fun c => c ≠ '{' && c ≠ '}') = true) (rest : List Char) :
    pyFormatAux ui ctx (l ++ rest) FmtState.copy =
      (fun out => l ++ out) <$> pyFormatAux ui ctx rest FmtState.copy := by
  induction l with
  | nil =>
      rw [List.nil_append]
      cases pyFormatAux ui ctx rest FmtState.copy <;> simp [Functor.map, Except.map]
  | cons c l ih =>
      simp only [List.all_cons, Bool.and_eq_true, decide_eq_true_eq] at hl
      obtain ⟨⟨h1, h2⟩, hrest⟩ := hl
      rw [List.cons_append]
      simp only [pyFormatAux, if_neg h1, if_neg h2, ih hrest]
      cases pyFormatAux ui ctx rest FmtState.copy <;> simp [Functor.map, Except.map]

/-- The scanner consumes a brace-free tail of a field name up to the
closing brace and resolves the accumulated name. -/
theorem pyFormatAux_field (ui ctx : Val) (l : List Char)
    (hl : l.all (fun c => c ≠ '{' && c ≠ '}') = true) (acc rest : List Char) :
    pyFormatAux ui ctx (l ++ '}' :: rest) (FmtState.field acc) =
      (do
        let sub ← resolveField ui ctx (acc ++ l)
        (fun out => sub ++ out) <$> pyFormatAux ui ctx rest FmtState.copy) := by
  induction l generalizing acc with
  | nil =>
      simp only [List.nil_append, List.append_nil]
      simp [pyFormatAux]
  | cons c l ih =>
      simp only [List.all_cons, Bool.and_eq_true, decide_eq_true_eq] at hl
      obtain ⟨⟨h1, h2⟩, hrest⟩ := hl
      rw [List.cons_append]
      simp only [pyFormatAux, if_neg h1, if_neg h2, ih hrest]
      simp [List.append_assoc]

/-- One scanner step: an opening brace in copy mode. -/
theorem pyFormatAux_copy_open (ui ctx : Val) (rest : List Char) :
    pyFormatAux ui ctx ('{' :: rest) FmtState.copy =
      pyFormatAux ui ctx rest FmtState.afterOpen := by
  simp [pyFormatAux]

/-- One scanner step: a non-brace character right after an opening brace
starts a field name. -/
theorem pyFormatAux_afterOpen_start (ui ctx : Val) (c : Char) (rest : List Char)
    (h1 : ¬c = '{') (h2 : ¬c = '}') :
    pyFormatAux ui ctx (c :: rest) FmtState.afterOpen =
      pyFormatAux ui ctx rest (FmtState.field [c]) := by
  simp only [pyFormatAux, if_neg h1, if_neg h2]

/-- The scanner substitutes a `{user_input}` placeholder with `str()` of
the `user_input` keyword value. -/
theorem pyFormatAux_user_input (ui ctx : Val) (rest : List Char) :
    pyFormatAux ui ctx ('{' :: ("user_input".toList ++ ('}' :: rest))) FmtState.copy =
      (fun out => (pyStr ui).toList ++ out) <$> pyFormatAux ui ctx rest FmtState.copy := by
  rw [pyFormatAux_copy_open]
  rw [show ("user_input".toList) = 'u' :: "ser_input".toList from rfl, List.cons_append]
  rw [pyFormatAux_afterOpen_start ui ctx 'u' _ (by decide) (by decide)]
  rw [pyFormatAux_field ui ctx "ser_input".toList (by decide) ['u'] rest]
  rw [show resolveField ui ctx (['u'] ++ "ser_input".toList) =
    Except.ok (pyStr ui).toList from rfl]
  cases pyFormatAux ui ctx rest FmtState.copy <;> simp [Bind.bind, Except.bind]

/-- The scanner substitutes a `{context}` placeholder with `str()` of the
`context` keyword value. -/
theorem pyFormatAux_context (ui ctx : Val) (rest : List Char) :
    pyFormatAux ui ctx ('{' :: ("context".toList ++ ('}' :: rest))) FmtState.copy =
      (fun out => (pyStr ctx).toList ++ out) <$> pyFormatAux ui ctx rest FmtState.copy := by
  rw [pyFormatAux_copy_open]
  rw [show ("context".toList) = 'c' :: "ontext".toList from rfl, List.cons_append]
  rw [pyFormatAux_afterOpen_start ui ctx 'c' _ (by decide) (by decide)]
  rw [pyFormatAux_field ui ctx "ontext".toList (by decide) ['c'] rest]
  rw [show resolveField ui ctx (['c'] ++ "ontext".toList) =
    Except.ok (pyStr ctx).toList from rfl]
  cases pyFormatAux ui ctx rest FmtState.copy <;> simp [Bind.bind, Except.bind]

/-- The scanner maps a brace-free remainder to itself. -/
theorem pyFormatAux_literal_nil (ui ctx : Val) (l : List Char)
    (hl : l.all (fun c => c ≠ '{' && c ≠ '}') = true) :
    pyFormatAux ui ctx l FmtState.copy = Except.ok l := by
  induction l with
  | nil => rfl
  | cons c l ih =>
      simp only [List.all_cons, Bool.and_eq_true, decide_eq_true_eq] at hl
      obtain ⟨⟨h1, h2⟩, hrest⟩ := hl
      simp [pyFormatAux, if_neg h1, if_neg h2, ih hrest, Functor.map, Except.map]

/-- `format` on a template made of brace-free literal segments around the
two named placeholders substitutes exactly the two keyword values. -/
theorem pyFormat_two_placeholders (ui ctx : Val) (a b c : String)
    (ha : braceFree a = true) (hb : braceFree b = true) (hc : braceFree c = true) :
    pyFormat (a ++ "{user_input}" ++ b ++ "{context}" ++ c) ui ctx =
      Except.ok (a ++ pyStr ui ++ b ++ pyStr ctx ++ c) := by
  rw [pyFormat]
  have hlist : (a ++ "{user_input}" ++ b ++ "{context}" ++ c).toList =
      a.toList ++ ('{' :: ("user_input".toList ++ ('}' ::
        (b.toList ++ ('{' :: ("context".toList ++ ('}' :: c.toList))))))) := by
    simp only [String.toList, String.data_append, List.append_assoc,
      show ("{user_input}" : String).data = '{' :: ("user_input".data ++ ['}']) from rfl,
      show ("{context}" : String).data = '{' :: ("context".data ++ ['}']) from rfl,
      List.cons_append, List.singleton_append, List.nil_append]
  rw [hlist]
  rw [pyFormatAux_literal ui ctx a.toList ha _]
  rw [pyFormatAux_user_input ui ctx _]
  rw [pyFormatAux_literal ui ctx b.toList hb _]
  rw [pyFormatAux_context ui ctx _]
  rw [pyFormatAux_literal_nil ui ctx c.toList hc]
  simp only [Functor.map, Except.map]
  congr 1
  have : (a ++ pyStr ui ++ b ++ pyStr ctx ++ c).data =
      a.data ++ ((pyStr ui).data ++ (b.data ++ ((pyStr ctx).data ++ c.data))) := by
    simp [String.data_append, List.append_assoc]
  calc String.mk (a.toList ++ ((pyStr ui).toList ++ (b.toList ++ ((pyStr ctx).toList ++ c.toList))))
      = String.mk ((a ++ pyStr ui ++ b ++ pyStr ctx ++ c).data) := by rw [this]; rfl
    _ = a ++ pyStr ui ++ b ++ pyStr ctx ++ c := rfl

/-- C7: on a mapping with both the `input` and `context` keys,
`compose_prompt` substitutes the template's `{user_input}` and `{context}`
placeholders exactly with the provided values; a mapping missing the
`input` key, or missing the `context` key, raises a composition
`PipelineError`. -/
theorem compose_prompt_spec (cfg : PipelineConfig) (env : Env) (tn : Option String)
    (es : List (String × Val)) (ui ctx : Val) (a b c : String) :
    (braceFree a = true → braceFree b = true → braceFree c = true →
      load_template cfg env tn = a ++ "{user_input}" ++ b ++ "{context}" ++ c →
      lookupKey es "input" = some ui → lookupKey es "context" = some ctx →
      compose_prompt cfg env (Val.dict es) tn =
        Except.ok (a ++ pyStr ui ++ b ++ pyStr ctx ++ c))
  ∧ (lookupKey es "input" = Option.none →
      compose_prompt cfg env (Val.dict es) tn =
        Except.error (PyErr.pipelineError "Missing required key in preprocessed data: input"))
  ∧ (lookupKey es "input" = some ui → lookupKey es "context" = Option.none →
      compose_prompt cfg env (Val.dict es) tn =
        Except.error
          (PyErr.pipelineError "Missing required key in preprocessed data: context")) := by
  refine ⟨?_, ?_, ?_⟩
  · intro ha hb hc hT hui hctx
    have hbody : composeBody cfg env (Val.dict es) tn =
        Except.ok (a ++ pyStr ui ++ b ++ pyStr ctx ++ c) := by
      simp only [composeBody, Val.getItem, hui, hctx, Bind.bind, Except.bind, hT]
      exact pyFormat_two_placeholders ui ctx a b c ha hb hc
    rw [compose_prompt, hbody]
  · intro h
    rw [compose_prompt, show composeBody cfg env (Val.dict es) tn =
      Except.error (PyErr.keyError "input") by
        simp only [composeBody, Val.getItem, h, Bind.bind, Except.bind]]
    rfl
  · intro hui h
    rw [compose_prompt, show composeBody cfg env (Val.dict es) tn =
      Except.error (PyErr.keyError "context") by
        simp only [composeBody, Val.getItem, hui, h, Bind.bind, Except.bind]]
    rfl

/-- C7 witness: the fallback template with concrete values, and the two
missing-key failures on concrete mappings. -/
theorem compose_prompt_spec_witness :
    compose_prompt {} envNone
      (Val.dict [("input", Val.str "hello"), ("context", Val.str "greeting")]) Option.none =
      Except.ok "User: hello\nContext: greeting\nResponse:" :=
  (compose_prompt_spec {} envNone Option.none
      [("input", Val.str "hello"), ("context", Val.str "greeting")]
      (Val.str "hello") (Val.str "greeting") "User: " "\nContext: " "\nResponse:").1
    (by decide) (by decide) (by decide) rfl rfl rfl

end LLMPipe
